import Mathlib

/-
Verification development for the OmniTalk conversation orchestrator.

The definitions below are a shallow embedding of the client-side
orchestration code: the data model of types.ts, the processInput
operation of App.tsx (the conversation orchestrator), the
stopMediaRecording and live-listening call sites of App.tsx, the
translateContent fallback logic of the gateway client, and the
persisted-profile load migration of App.tsx.

Asynchronous service calls (translation, speech synthesis, avatar
reply) are modelled by an oracle record GatewayOutcome carrying the
observable outcome of each awaited call for one processInput
invocation.  The recursive auto-reply invocation that the code
schedules via setTimeout is modelled as a returned list of pending
calls; the error-banner timeout scheduled by handleError is modelled
by a flag plus the fireErrorTimeout transition.
-/

namespace OmniTalk

/-- Reference data for a supported language, mirroring the Language
interface of types.ts: code, display name, flag glyph, synthesis
voice identifier. -/
structure Language where
  code : String
  name : String
  flag : String
  voiceName : String
deriving DecidableEq, Repr

/-- The two conversational roles of a message, mirroring the
sender field of the Message interface in types.ts. -/
inductive Sender where
  | user
  | partner
deriving DecidableEq, Repr

/-- MessageType of types.ts. -/
inductive MessageType where
  | text
  | audio_live
  | video_live
  | audio_file
  | video_file
deriving DecidableEq, Repr

/-- AppState enum of types.ts (the orchestrator phase). -/
inductive AppState where
  | IDLE
  | LISTENING
  | RECORDING
  | TRANSLATING
  | ERROR
deriving DecidableEq, Repr

/-- CommMode enum of types.ts. -/
inductive CommMode where
  | TEXT
  | LIVE_AUDIO
  | LIVE_VIDEO
  | REC_AUDIO
  | REC_VIDEO
deriving DecidableEq, Repr

/-- OutputPreference enum of types.ts. -/
inductive OutputPreference where
  | TRANSLATED
  | ORIGINAL
deriving DecidableEq, Repr

/-- A captured media blob: the recorded chunks plus the container
mime type chosen at assembly time in stopMediaRecording. -/
structure Blob where
  chunks : List (List Nat)
  mimeType : String
deriving DecidableEq, Repr

/-- TranslationResponse of types.ts: the structured output of the
translation gateway. -/
structure TranslationResponse where
  translatedText : String
  suggestedResponses : List String
  detectedEmotion : Option String
deriving DecidableEq, Repr

/-- UserProfile of types.ts. -/
structure UserProfile where
  name : String
  primaryLanguage : String
  conversationTypes : List String
  tone : List String
  bio : String
deriving DecidableEq, Repr

/-- Message of types.ts.  Byte buffers are modelled as lists of
naturals. -/
structure Message where
  id : String
  type : MessageType
  originalText : String
  translatedText : String
  originalLang : String
  targetLang : String
  sender : Sender
  timestamp : Nat
  suggestedResponses : Option (List String)
  translatedAudioBuffer : Option (List Nat)
  originalAudioBlob : Option Blob
  videoBlob : Option Blob
  isAutoReply : Bool
  detectedEmotion : Option String
deriving DecidableEq, Repr

/-- The component state of App.tsx that the orchestrator reads and
writes: one field per useState hook relevant to processInput,
stopMediaRecording and the live-listening paths. -/
structure SessionState where
  langA : Language
  langB : Language
  messages : List Message
  appState : AppState
  commMode : CommMode
  preference : OutputPreference
  errorMsg : Option String
  userProfile : Option UserProfile
  isAiResponderActive : Bool
  smartReplies : List String
  recordingWho : Option Sender
  interimText : String
  isMediaRecording : Bool
deriving DecidableEq, Repr

/-- Oracle for the awaited service calls of one processInput
invocation: the outcome of translateContent (a thrown failure or a
TranslationResponse), the outcome of generateSpeech (none when the
call threw), the outcome of generateAvatarReply, and the two
Date.now readings (message id at entry, timestamp at construction). -/
structure GatewayOutcome where
  translate : Except String TranslationResponse
  speech : Option (List Nat)
  avatar : Except String String
  now : Nat
  nowCommit : Nat
deriving Repr

/-- Arguments of a processInput invocation that the code schedules
for later (the recursive auto-reply via setTimeout, and the call
scheduled by stopMediaRecording). -/
structure PendingCall where
  text : String
  sourceLang : Language
  targetLang : Language
  sender : Sender
  type : MessageType
  mediaBlob : Option Blob
  isAutoReply : Bool
deriving DecidableEq, Repr

/-- Observable result of one processInput invocation: the new
component state, the list of recursive invocations scheduled by the
auto-reply logic, whether handleError scheduled an error-clearing
timeout, and the audio auto-played at the end. -/
structure ProcessResult where
  state : SessionState
  scheduled : List PendingCall
  errorTimeoutScheduled : Bool
  playedAudio : Option (List Nat)
deriving Repr

/-- Delay in milliseconds after which the error banner set by
handleError auto-clears (App.tsx line 137). -/
def errorTimeoutMs : Nat := 4000

/-- handleError of App.tsx: records the error message, enters the
ERROR phase.  The setTimeout body it schedules is fireErrorTimeout. -/
def handleError (s : SessionState) (msg : String) : SessionState :=
  { s with errorMsg := some msg, appState := AppState.ERROR }

/-- The body of the timeout scheduled by handleError: clears the
error message and returns the phase to IDLE. -/
def fireErrorTimeout (s : SessionState) : SessionState :=
  { s with errorMsg := none, appState := AppState.IDLE }

/-- The Message construction block of processInput (App.tsx lines
242 to 258). -/
def buildMessage (msgId : String) (text : String) (sourceLang targetLang : Language)
    (sender : Sender) (type : MessageType) (mediaBlob : Option Blob) (isAutoReply : Bool)
    (translationResult : TranslationResponse) (translatedAudioData : Option (List Nat))
    (timestamp : Nat) : Message :=
  { id := msgId
    type := type
    originalText := text
    translatedText := translationResult.translatedText
    originalLang := sourceLang.code
    targetLang := targetLang.code
    sender := sender
    timestamp := timestamp
    suggestedResponses := some translationResult.suggestedResponses
    translatedAudioBuffer := translatedAudioData
    originalAudioBlob := mediaBlob
    videoBlob := if type = MessageType.video_file ∨ type = MessageType.video_live
                 then mediaBlob else none
    isAutoReply := isAutoReply
    detectedEmotion := translationResult.detectedEmotion }

/-- processInput of App.tsx (lines 190 to 296), the core of the
conversation orchestrator.  Step by step: enter TRANSLATING and
clear the interim transcript; clear the smart replies when the
sender is the local user; await the translation (the catch branch
runs handleError followed by an immediate setAppState IDLE, and
commits no message); on success replace the smart replies with the
returned candidates when the sender is the partner; attach the
speech-synthesis result when it succeeded; construct the Message and
append it to the history; when the sender is the partner, the AI
responder is active and a profile exists, schedule the recursive
auto-reply invocation built from the successful avatar-reply call;
return to IDLE and auto-play the translated audio when the output
preference asks for it. -/
def processInput (s : SessionState) (text : String) (sourceLang targetLang : Language)
    (sender : Sender) (type : MessageType) (mediaBlob : Option Blob)
    (isAutoReply : Bool) (gw : GatewayOutcome) : ProcessResult :=
  let s1 : SessionState := { s with appState := AppState.TRANSLATING, interimText := "" }
  let s2 : SessionState := if sender = Sender.user then { s1 with smartReplies := [] } else s1
  let msgId : String := toString gw.now
  match gw.translate with
  | Except.error _ =>
      { state := { handleError s2 "Processing failed. Please try again." with
                     appState := AppState.IDLE }
        scheduled := []
        errorTimeoutScheduled := true
        playedAudio := none }
  | Except.ok translationResult =>
      let s3 : SessionState :=
        if sender = Sender.partner
        then { s2 with smartReplies := translationResult.suggestedResponses } else s2
      let translatedAudioData : Option (List Nat) := gw.speech
      let newMessage : Message :=
        buildMessage msgId text sourceLang targetLang sender type mediaBlob isAutoReply
          translationResult translatedAudioData gw.nowCommit
      let s4 : SessionState := { s3 with messages := s3.messages ++ [newMessage] }
      let scheduled : List PendingCall :=
        if sender = Sender.partner ∧ s4.isAiResponderActive = true ∧ s4.userProfile.isSome = true
        then
          match gw.avatar with
          | Except.ok aiReplyText =>
              [{ text := aiReplyText
                 sourceLang := s4.langA
                 targetLang := s4.langB
                 sender := Sender.user
                 type := MessageType.text
                 mediaBlob := none
                 isAutoReply := true }]
          | Except.error _ => []
        else []
      let s5 : SessionState := { s4 with appState := AppState.IDLE }
      { state := s5
        scheduled := scheduled
        errorTimeoutScheduled := false
        playedAudio := if s5.preference = OutputPreference.TRANSLATED
                       then translatedAudioData else none }

/-- stopMediaRecording of App.tsx (lines 439 to 468): when a
recorder exists and a recording is in progress, stop capture, reset
the recording flags, assemble the blob from the captured chunks, and
schedule a processInput invocation whose text falls back to the
placeholder when the captured transcript is empty and whose sender
falls back to the local user when no recording party is set. -/
def stopMediaRecording (s : SessionState) (hasRecorder : Bool) (chunks : List (List Nat)) :
    SessionState × Option PendingCall :=
  if hasRecorder = true ∧ s.isMediaRecording = true then
    let stopped : SessionState :=
      { s with isMediaRecording := false, recordingWho := none, appState := AppState.IDLE }
    let mimeType : String := if s.commMode = CommMode.REC_VIDEO then "video/webm" else "audio/webm"
    let blob : Blob := { chunks := chunks, mimeType := mimeType }
    let finalSafeText : String := if s.interimText = "" then "(Audio Content)" else s.interimText
    let sender : Sender := s.recordingWho.getD Sender.user
    (stopped,
      some { text := finalSafeText
             sourceLang := if sender = Sender.user then s.langA else s.langB
             targetLang := if sender = Sender.user then s.langB else s.langA
             sender := sender
             type := if s.commMode = CommMode.REC_VIDEO
                     then MessageType.video_file else MessageType.audio_file
             mediaBlob := some blob
             isAutoReply := false })
  else (s, none)

/-- The processInput invocation built by the final-transcript branch
of startLiveListening in App.tsx (lines 341 to 353). -/
def liveFinalCall (s : SessionState) (finalTranscript : String) (sender : Sender) : PendingCall :=
  { text := finalTranscript
    sourceLang := if sender = Sender.user then s.langA else s.langB
    targetLang := if sender = Sender.user then s.langB else s.langA
    sender := sender
    type := if s.commMode = CommMode.LIVE_VIDEO
            then MessageType.video_live else MessageType.audio_live
    mediaBlob := none
    isAutoReply := false }

/-- The three generic fallback replies of the translateContent parse
failure branch in the gateway client. -/
def fallbackSuggestedResponses : List String :=
  ["Could you repeat that?", "I understand.", "Thank you."]

/-- The replace of the parse failure branch: removes every opening
and closing curly-brace character from the raw body. -/
def stripBraces (s : String) : String :=
  String.mk (s.toList.filter (fun c => c != Char.ofNat 123 && c != Char.ofNat 125))

/-- The slice of the parse failure branch: keeps the first n
characters of the raw body. -/
def sliceChars (n : Nat) (s : String) : String :=
  String.mk (s.toList.take n)

/-- translateContent of the gateway client, modelled from the point
where the model response text is in hand: an absent or empty body is
thrown as a failure; a present body is parsed, and on parse failure
the call degrades to a well-formed fallback response (truncated
text, the Neutral emotion label, three generic replies) instead of
raising.  The platform JSON parse is abstracted as the parseJson
argument. -/
def translateContent (responseText : Option String)
    (parseJson : String → Option TranslationResponse) : Except String TranslationResponse :=
  match responseText with
  | none => Except.error "No translation returned"
  | some result =>
      if result = "" then Except.error "No translation returned"
      else
        match parseJson result with
        | some tr => Except.ok tr
        | none =>
            Except.ok
              { translatedText := sliceChars 100 (stripBraces result) ++ "..."
                detectedEmotion := some "Neutral"
                suggestedResponses := fallbackSuggestedResponses }

/-- The tone field of a persisted profile as found in storage:
either the legacy single-string shape or the current list shape. -/
inductive ToneField where
  | legacyTone (tone : String)
  | modernTone (tones : List String)
deriving DecidableEq, Repr

/-- A persisted profile record as parsed from storage, with the tone
field still in its stored shape. -/
structure StoredProfile where
  name : String
  primaryLanguage : String
  conversationTypes : List String
  tone : ToneField
  bio : String
deriving DecidableEq, Repr

/-- The legacy-tone migration of the profile-load effect in App.tsx
(lines 64 to 67): a string-valued tone becomes the one-element
list. -/
def migrateTone : ToneField → List String
  | ToneField.legacyTone t => [t]
  | ToneField.modernTone ts => ts

/-- The profile-load normalization of App.tsx: the parsed stored
profile with its tone field migrated to the list shape. -/
def loadProfile (sp : StoredProfile) : UserProfile :=
  { name := sp.name
    primaryLanguage := sp.primaryLanguage
    conversationTypes := sp.conversationTypes
    tone := migrateTone sp.tone
    bio := sp.bio }

/-- Example language for concrete witnesses, shaped like the first
entry of the SUPPORTED_LANGUAGES table. -/
def exLangEn : Language :=
  { code := "en-US", name := "English", flag := "US", voiceName := "Puck" }

/-- Example language for concrete witnesses, shaped like the second
entry of the SUPPORTED_LANGUAGES table. -/
def exLangEs : Language :=
  { code := "es-ES", name := "Spanish", flag := "ES", voiceName := "Kore" }

/-- Example profile for concrete witnesses. -/
def exProfile : UserProfile :=
  { name := "Alex", primaryLanguage := "en-US", conversationTypes := ["Travel"]
    tone := ["Formal"], bio := "" }

/-- Example component state for concrete witnesses: idle, with a
profile, the AI responder active, one pending smart reply, and a
recording in progress with an empty interim transcript. -/
def exState : SessionState :=
  { langA := exLangEn, langB := exLangEs, messages := [], appState := AppState.IDLE
    commMode := CommMode.REC_AUDIO, preference := OutputPreference.TRANSLATED
    errorMsg := none, userProfile := some exProfile, isAiResponderActive := true
    smartReplies := ["Sounds good"], recordingWho := some Sender.user
    interimText := "", isMediaRecording := true }

/-- Example successful translation outcome with three candidates. -/
def exTranslation : TranslationResponse :=
  { translatedText := "Hola", suggestedResponses := ["Si", "No", "Gracias"]
    detectedEmotion := some "Neutral" }

/-- Example oracle where the translation succeeds, speech synthesis
fails and the avatar reply succeeds. -/
def exGwOk : GatewayOutcome :=
  { translate := Except.ok exTranslation, speech := none
    avatar := Except.ok "I am busy now.", now := 1, nowCommit := 2 }

/-- Example oracle where the translation call itself throws. -/
def exGwErr : GatewayOutcome :=
  { translate := Except.error "network failure", speech := none
    avatar := Except.error "network failure", now := 1, nowCommit := 2 }

/-- Example oracle where the translation succeeds but the
avatar-reply call fails. -/
def exGwAvatarFail : GatewayOutcome :=
  { translate := Except.ok exTranslation, speech := none
    avatar := Except.error "avatar failure", now := 1, nowCommit := 2 }

/-- On a successful translation, the history of the resulting state
is the old history with the newly constructed Message appended. -/
lemma processInput_ok_messages (s : SessionState) (text : String)
    (sourceLang targetLang : Language) (sender : Sender) (type : MessageType)
    (mediaBlob : Option Blob) (isAutoReply : Bool) (gw : GatewayOutcome)
    (tr : TranslationResponse) (htr : gw.translate = Except.ok tr) :
    (processInput s text sourceLang targetLang sender type mediaBlob isAutoReply gw).state.messages
      = s.messages ++ [buildMessage (toString gw.now) text sourceLang targetLang sender type
          mediaBlob isAutoReply tr gw.speech gw.nowCommit] := by
  cases sender <;> simp [processInput, htr]

/-- On a successful translation, the phase ends at IDLE, the error
message is untouched and no error timeout is scheduled. -/
lemma processInput_ok_noError (s : SessionState) (text : String)
    (sourceLang targetLang : Language) (sender : Sender) (type : MessageType)
    (mediaBlob : Option Blob) (isAutoReply : Bool) (gw : GatewayOutcome)
    (tr : TranslationResponse) (htr : gw.translate = Except.ok tr) :
    (processInput s text sourceLang targetLang sender type mediaBlob isAutoReply gw).state.appState
        = AppState.IDLE ∧
    (processInput s text sourceLang targetLang sender type mediaBlob isAutoReply gw).state.errorMsg
        = s.errorMsg ∧
    (processInput s text sourceLang targetLang sender type mediaBlob isAutoReply
        gw).errorTimeoutScheduled = false := by
  cases sender <;> simp [processInput, htr]

/-- On a thrown translation, the invocation aborts: the error
message is set, history and phase are as handleError followed by the
immediate IDLE override leave them, and the error timeout is
scheduled. -/
lemma processInput_err (s : SessionState) (text : String)
    (sourceLang targetLang : Language) (sender : Sender) (type : MessageType)
    (mediaBlob : Option Blob) (isAutoReply : Bool) (gw : GatewayOutcome)
    (e : String) (herr : gw.translate = Except.error e) :
    (processInput s text sourceLang targetLang sender type mediaBlob isAutoReply gw).state.messages
        = s.messages ∧
    (processInput s text sourceLang targetLang sender type mediaBlob isAutoReply gw).state.errorMsg
        = some "Processing failed. Please try again." ∧
    (processInput s text sourceLang targetLang sender type mediaBlob isAutoReply gw).state.appState
        = AppState.IDLE ∧
    (processInput s text sourceLang targetLang sender type mediaBlob isAutoReply
        gw).errorTimeoutScheduled = true := by
  cases sender <;> simp [processInput, handleError, herr]

/-- C1.  For every sequence of processInput invocations, the message
History is append-only: each successful invocation increases the
History length by exactly one (appending the newly constructed
Message at the end), and no invocation ever removes, reorders, or
mutates an existing entry (on a thrown translation the History is
returned unchanged, so every invocation extends the History by a
suffix and leaves every existing entry in place). -/
theorem spec_C1 (s : SessionState) (text : String)
    (sourceLang targetLang : Language) (sender : Sender) (type : MessageType)
    (mediaBlob : Option Blob) (isAutoReply : Bool) (gw : GatewayOutcome)
    (tr : TranslationResponse) (htr : gw.translate = Except.ok tr)
    (gw2 : GatewayOutcome) (e2 : String) (herr : gw2.translate = Except.error e2) :
    (∃ m : Message,
      (processInput s text sourceLang targetLang sender type mediaBlob isAutoReply gw).state.messages
        = s.messages ++ [m]) ∧
    (processInput s text sourceLang targetLang sender type mediaBlob isAutoReply
        gw).state.messages.length = s.messages.length + 1 ∧
    (processInput s text sourceLang targetLang sender type mediaBlob isAutoReply
        gw2).state.messages = s.messages := by
  refine ⟨⟨_, processInput_ok_messages s text sourceLang targetLang sender type mediaBlob
      isAutoReply gw tr htr⟩, ?_, (processInput_err s text sourceLang targetLang sender type
      mediaBlob isAutoReply gw2 e2 herr).1⟩
  rw [processInput_ok_messages s text sourceLang targetLang sender type mediaBlob
      isAutoReply gw tr htr]
  simp

/-- Witness for C1 at a concrete state and oracle. -/
theorem spec_C1_witness :
    (∃ m : Message,
      (processInput exState "Hello" exLangEn exLangEs Sender.user MessageType.text none false
        exGwOk).state.messages = exState.messages ++ [m]) ∧
    (processInput exState "Hello" exLangEn exLangEs Sender.user MessageType.text none false
        exGwOk).state.messages.length = exState.messages.length + 1 ∧
    (processInput exState "Hello" exLangEn exLangEs Sender.user MessageType.text none false
        exGwErr).state.messages = exState.messages :=
  spec_C1 exState "Hello" exLangEn exLangEs Sender.user MessageType.text none false
    exGwOk exTranslation rfl exGwErr "network failure" rfl

/-- C2.  For every processInput invocation in which the translation
gateway call itself throws, the operation aborts atomically: a
user-visible error is surfaced, the error auto-clears after the
fixed timeout (firing the scheduled timeout leaves no error message
and the IDLE phase), the phase returns to IDLE, and no Message is
appended to the History. -/
theorem spec_C2 (s : SessionState) (text : String)
    (sourceLang targetLang : Language) (sender : Sender) (type : MessageType)
    (mediaBlob : Option Blob) (isAutoReply : Bool) (gw : GatewayOutcome)
    (e : String) (herr : gw.translate = Except.error e) :
    (processInput s text sourceLang targetLang sender type mediaBlob isAutoReply gw).state.errorMsg
        = some "Processing failed. Please try again." ∧
    (processInput s text sourceLang targetLang sender type mediaBlob isAutoReply
        gw).errorTimeoutScheduled = true ∧
    (fireErrorTimeout
        (processInput s text sourceLang targetLang sender type mediaBlob isAutoReply
          gw).state).errorMsg = none ∧
    (fireErrorTimeout
        (processInput s text sourceLang targetLang sender type mediaBlob isAutoReply
          gw).state).appState = AppState.IDLE ∧
    (processInput s text sourceLang targetLang sender type mediaBlob isAutoReply gw).state.appState
        = AppState.IDLE ∧
    (processInput s text sourceLang targetLang sender type mediaBlob isAutoReply gw).state.messages
        = s.messages := by
  obtain ⟨h1, h2, h3, h4⟩ :=
    processInput_err s text sourceLang targetLang sender type mediaBlob isAutoReply gw e herr
  exact ⟨h2, h4, rfl, rfl, h3, h1⟩

/-- Witness for C2 at a concrete state and oracle. -/
theorem spec_C2_witness :
    (processInput exState "Hello" exLangEn exLangEs Sender.user MessageType.text none false
        exGwErr).state.errorMsg = some "Processing failed. Please try again." ∧
    (processInput exState "Hello" exLangEn exLangEs Sender.user MessageType.text none false
        exGwErr).errorTimeoutScheduled = true ∧
    (fireErrorTimeout
        (processInput exState "Hello" exLangEn exLangEs Sender.user MessageType.text none false
          exGwErr).state).errorMsg = none ∧
    (fireErrorTimeout
        (processInput exState "Hello" exLangEn exLangEs Sender.user MessageType.text none false
          exGwErr).state).appState = AppState.IDLE ∧
    (processInput exState "Hello" exLangEn exLangEs Sender.user MessageType.text none false
        exGwErr).state.appState = AppState.IDLE ∧
    (processInput exState "Hello" exLangEn exLangEs Sender.user MessageType.text none false
        exGwErr).state.messages = exState.messages :=
  spec_C2 exState "Hello" exLangEn exLangEs Sender.user MessageType.text none false
    exGwErr "network failure" rfl

/-- C10.  Every Message constructed by processInput, including
local-user messages and auto-reply messages, has its
suggestedResponses field populated with the suggestion list returned
by that same invocation's translation call; the field is never left
absent on a successfully committed message. -/
theorem spec_C10 (s : SessionState) (text : String)
    (sourceLang targetLang : Language) (sender : Sender) (type : MessageType)
    (mediaBlob : Option Blob) (isAutoReply : Bool) (gw : GatewayOutcome)
    (tr : TranslationResponse) (htr : gw.translate = Except.ok tr) :
    ∃ m : Message,
      (processInput s text sourceLang targetLang sender type mediaBlob isAutoReply gw).state.messages
        = s.messages ++ [m] ∧
      m.suggestedResponses = some tr.suggestedResponses ∧
      m.suggestedResponses.isSome = true := by
  exact ⟨_, processInput_ok_messages s text sourceLang targetLang sender type mediaBlob
      isAutoReply gw tr htr, rfl, rfl⟩

/-- Witness for C10 at a concrete state and oracle, with an
auto-reply message sent by the local user. -/
theorem spec_C10_witness :
    ∃ m : Message,
      (processInput exState "Hello" exLangEn exLangEs Sender.user MessageType.text none true
        exGwOk).state.messages = exState.messages ++ [m] ∧
      m.suggestedResponses = some exTranslation.suggestedResponses ∧
      m.suggestedResponses.isSome = true :=
  spec_C10 exState "Hello" exLangEn exLangEs Sender.user MessageType.text none true
    exGwOk exTranslation rfl

/-- Every partner-attributed invocation built by the live-listening
final-transcript path carries the partner language as source and the
user language as target. -/
lemma liveFinalCall_partner_langs (s : SessionState) (t : String) :
    (liveFinalCall s t Sender.partner).sourceLang = s.langB ∧
    (liveFinalCall s t Sender.partner).targetLang = s.langA := by
  simp [liveFinalCall]

/-- Every partner-attributed invocation scheduled by
stopMediaRecording carries the partner language as source and the
user language as target. -/
lemma stopMediaRecording_partner_langs (s : SessionState) (hasRecorder : Bool)
    (chunks : List (List Nat)) (pc : PendingCall)
    (hpc : (stopMediaRecording s hasRecorder chunks).2 = some pc)
    (hps : pc.sender = Sender.partner) :
    pc.sourceLang = s.langB ∧ pc.targetLang = s.langA := by
  by_cases hcond : hasRecorder = true ∧ s.isMediaRecording = true
  · simp only [stopMediaRecording, if_pos hcond, Option.some.injEq] at hpc
    subst hpc
    cases hgd : s.recordingWho.getD Sender.user <;> simp_all [stopMediaRecording]
  · simp [stopMediaRecording, if_neg hcond] at hpc

/-- Counterexample for C3 as stated.  At the concrete example state
the sender is the remote partner, the translation succeeds (so the
message commits), auto-reply mode is active and a profile exists,
yet because the avatar-reply call fails the catch branch drops the
cycle and zero recursive invocations are scheduled, not exactly
one. -/
theorem spec_C3_counterexample :
    (processInput exState "Hola amigo" exState.langB exState.langA Sender.partner
        MessageType.audio_live none false exGwAvatarFail).scheduled = [] ∧
    (processInput exState "Hola amigo" exState.langB exState.langA Sender.partner
        MessageType.audio_live none false exGwAvatarFail).scheduled.length ≠ 1 := by
  decide

/-- C3 as amended.  For every processInput invocation with sender
equal to the remote partner that commits successfully while
auto-reply mode is active and a profile exists, and whose
avatar-reply call succeeds (on avatar failure the cycle is dropped
silently and nothing is scheduled),
exactly one recursive processInput invocation is scheduled,
attributed to the local user, with type text and isAutoReply true,
and with source and target languages swapped relative to the
triggering invocation (every partner-attributed call site passes the
partner language as source and the user language as target, per the
two lemmas above, which the language hypotheses record). -/
theorem spec_C3 (s : SessionState) (text : String)
    (sourceLang targetLang : Language) (type : MessageType)
    (mediaBlob : Option Blob) (isAutoReply : Bool) (gw : GatewayOutcome)
    (tr : TranslationResponse) (htr : gw.translate = Except.ok tr)
    (ha : s.isAiResponderActive = true) (p : UserProfile) (hp : s.userProfile = some p)
    (r : String) (hav : gw.avatar = Except.ok r)
    (hsl : sourceLang = s.langB) (htl : targetLang = s.langA) :
    (processInput s text sourceLang targetLang Sender.partner type mediaBlob isAutoReply
        gw).scheduled =
      [{ text := r, sourceLang := targetLang, targetLang := sourceLang,
         sender := Sender.user, type := MessageType.text, mediaBlob := none,
         isAutoReply := true }] := by
  subst hsl htl
  simp [processInput, htr, ha, hp, hav]

/-- Witness for C3 at a concrete state and oracle. -/
theorem spec_C3_witness :
    (processInput exState "Hola amigo" exState.langB exState.langA Sender.partner
        MessageType.audio_live none false exGwOk).scheduled =
      [{ text := "I am busy now.", sourceLang := exState.langA, targetLang := exState.langB,
         sender := Sender.user, type := MessageType.text, mediaBlob := none,
         isAutoReply := true }] :=
  spec_C3 exState "Hola amigo" exState.langB exState.langA MessageType.audio_live none false
    exGwOk exTranslation rfl rfl exProfile rfl "I am busy now." rfl rfl rfl

/-- C7.  Whenever auto-reply mode is inactive, no processInput
invocation, for any text, languages, sender, type or oracle, ever
schedules a second, recursive processInput invocation. -/
theorem spec_C7 (s : SessionState) (text : String)
    (sourceLang targetLang : Language) (sender : Sender) (type : MessageType)
    (mediaBlob : Option Blob) (isAutoReply : Bool) (gw : GatewayOutcome)
    (ha : s.isAiResponderActive = false) :
    (processInput s text sourceLang targetLang sender type mediaBlob isAutoReply gw).scheduled
      = [] := by
  cases htr : gw.translate <;> cases sender <;> simp [processInput, htr, ha]

/-- Witness for C7 at a concrete state (the example state with the
AI responder switched off) and oracle. -/
theorem spec_C7_witness :
    (processInput { exState with isAiResponderActive := false } "Hola amigo" exLangEs exLangEn
        Sender.partner MessageType.text none false exGwOk).scheduled = [] :=
  spec_C7 { exState with isAiResponderActive := false } "Hola amigo" exLangEs exLangEn
    Sender.partner MessageType.text none false exGwOk rfl

/-- Counterexample for C4 as stated.  The claim says a local-user
invocation never modifies the suggestion list in that same call, but
processInput clears the smart replies at entry whenever the sender
is the local user: at the concrete example state, whose suggestion
list is nonempty, a successful local-user call changes the list. -/
theorem spec_C4_counterexample :
    (processInput exState "Hello" exLangEn exLangEs Sender.user MessageType.text none false
        exGwOk).state.smartReplies ≠ exState.smartReplies := by
  decide

/-- C4 as amended.  For every processInput invocation whose
translation succeeds: if the sender is the remote partner, the
suggestion list is replaced with exactly the returned candidates
(three entries whenever the gateway honours its three-suggestion
contract); if the sender is the local user, the suggestion list is
cleared to the empty list at entry and is never populated from the
candidates of that same call (for any oracle outcome). -/
theorem spec_C4 (s : SessionState) (text : String)
    (sourceLang targetLang : Language) (type : MessageType)
    (mediaBlob : Option Blob) (isAutoReply : Bool) (gw : GatewayOutcome)
    (tr : TranslationResponse) (htr : gw.translate = Except.ok tr)
    (hlen : tr.suggestedResponses.length = 3) (gw2 : GatewayOutcome) :
    (processInput s text sourceLang targetLang Sender.partner type mediaBlob isAutoReply
        gw).state.smartReplies = tr.suggestedResponses ∧
    (processInput s text sourceLang targetLang Sender.partner type mediaBlob isAutoReply
        gw).state.smartReplies.length = 3 ∧
    (processInput s text sourceLang targetLang Sender.user type mediaBlob isAutoReply
        gw2).state.smartReplies = [] := by
  refine ⟨?_, ?_, ?_⟩
  · simp [processInput, htr]
  · simp [processInput, htr, hlen]
  · cases htr2 : gw2.translate <;> simp [processInput, handleError, htr2]

/-- Witness for C4 as amended, at a concrete state and oracle. -/
theorem spec_C4_witness :
    (processInput exState "Hola amigo" exLangEs exLangEn Sender.partner MessageType.text none
        false exGwOk).state.smartReplies = exTranslation.suggestedResponses ∧
    (processInput exState "Hola amigo" exLangEs exLangEn Sender.partner MessageType.text none
        false exGwOk).state.smartReplies.length = 3 ∧
    (processInput exState "Hola amigo" exLangEs exLangEn Sender.user MessageType.text none
        false exGwErr).state.smartReplies = [] :=
  spec_C4 exState "Hola amigo" exLangEs exLangEn MessageType.text none false
    exGwOk exTranslation rfl rfl exGwErr

/-- Counterexample for C5 as stated.  The empty body is a gateway
response body that is not parseable as the expected structured
output, yet translateContent raises for it instead of degrading: the
falsy check on the response text throws the no-translation failure
before the parse fallback is reached. -/
theorem spec_C5_counterexample :
    translateContent (some "") (fun _ => none) = Except.error "No translation returned" :=
  rfl

/-- C5 as amended.  For every nonempty gateway response body that is
not parseable as the expected structured output, translateContent
still returns a well-formed result and never raises to the caller:
the best-effort truncated text built from the body with braces
removed, the Neutral emotion label, and the three generic fallback
replies.  (An absent or empty body instead throws the fatal
no-translation failure, per the counterexample above.) -/
theorem spec_C5 (body : String) (parseJson : String → Option TranslationResponse)
    (hne : body ≠ "") (hfail : parseJson body = none) :
    translateContent (some body) parseJson =
      Except.ok
        { translatedText := sliceChars 100 (stripBraces body) ++ "..."
          suggestedResponses := fallbackSuggestedResponses
          detectedEmotion := some "Neutral" } ∧
    fallbackSuggestedResponses.length = 3 := by
  refine ⟨?_, rfl⟩
  simp [translateContent, hne, hfail]

/-- Witness for C5 at a concrete unparsable body. -/
theorem spec_C5_witness :
    translateContent (some "garbled output") (fun _ => none) =
      Except.ok
        { translatedText := sliceChars 100 (stripBraces "garbled output") ++ "..."
          suggestedResponses := fallbackSuggestedResponses
          detectedEmotion := some "Neutral" } ∧
    fallbackSuggestedResponses.length = 3 :=
  spec_C5 "garbled output" (fun _ => none) (by decide) rfl

/-- C6.  For every processInput invocation in which the translation
succeeds but speech synthesis fails, message creation is not
aborted: a Message is still appended carrying the original and
translated text with no synthesized-audio buffer attached, the phase
ends at IDLE, and no error is surfaced (the error message is
untouched and no error timeout is scheduled). -/
theorem spec_C6 (s : SessionState) (text : String)
    (sourceLang targetLang : Language) (sender : Sender) (type : MessageType)
    (mediaBlob : Option Blob) (isAutoReply : Bool) (gw : GatewayOutcome)
    (tr : TranslationResponse) (htr : gw.translate = Except.ok tr)
    (htts : gw.speech = none) :
    (∃ m : Message,
      (processInput s text sourceLang targetLang sender type mediaBlob isAutoReply
          gw).state.messages = s.messages ++ [m] ∧
      m.originalText = text ∧
      m.translatedText = tr.translatedText ∧
      m.translatedAudioBuffer = none) ∧
    (processInput s text sourceLang targetLang sender type mediaBlob isAutoReply gw).state.appState
        = AppState.IDLE ∧
    (processInput s text sourceLang targetLang sender type mediaBlob isAutoReply gw).state.errorMsg
        = s.errorMsg ∧
    (processInput s text sourceLang targetLang sender type mediaBlob isAutoReply
        gw).errorTimeoutScheduled = false := by
  obtain ⟨h1, h2, h3⟩ :=
    processInput_ok_noError s text sourceLang targetLang sender type mediaBlob isAutoReply gw tr htr
  refine ⟨⟨_, processInput_ok_messages s text sourceLang targetLang sender type mediaBlob
      isAutoReply gw tr htr, rfl, rfl, ?_⟩, h1, h2, h3⟩
  simp [buildMessage, htts]

/-- Witness for C6: the scenario of the spec, a local-user text
"Hello" translated to "Hola" with failing synthesis. -/
theorem spec_C6_witness :
    (∃ m : Message,
      (processInput exState "Hello" exLangEn exLangEs Sender.user MessageType.text none false
          exGwOk).state.messages = exState.messages ++ [m] ∧
      m.originalText = "Hello" ∧
      m.translatedText = exTranslation.translatedText ∧
      m.translatedAudioBuffer = none) ∧
    (processInput exState "Hello" exLangEn exLangEs Sender.user MessageType.text none false
        exGwOk).state.appState = AppState.IDLE ∧
    (processInput exState "Hello" exLangEn exLangEs Sender.user MessageType.text none false
        exGwOk).state.errorMsg = exState.errorMsg ∧
    (processInput exState "Hello" exLangEn exLangEs Sender.user MessageType.text none false
        exGwOk).errorTimeoutScheduled = false :=
  spec_C6 exState "Hello" exLangEn exLangEs Sender.user MessageType.text none false
    exGwOk exTranslation rfl rfl

/-- C8.  When a media recording is stopped with zero captured
transcript text, the scheduled processInput invocation carries the
placeholder text, and the Message it commits (whenever its
translation succeeds) has originalText equal to the configured
placeholder string and never the empty string. -/
theorem spec_C8 (s : SessionState) (chunks : List (List Nat))
    (hrec : s.isMediaRecording = true) (hempty : s.interimText = "")
    (gw : GatewayOutcome) (tr : TranslationResponse) (htr : gw.translate = Except.ok tr) :
    ∃ pc : PendingCall,
      (stopMediaRecording s true chunks).2 = some pc ∧
      pc.text = "(Audio Content)" ∧
      pc.text ≠ "" ∧
      ∃ m : Message,
        (processInput (stopMediaRecording s true chunks).1 pc.text pc.sourceLang pc.targetLang
            pc.sender pc.type pc.mediaBlob pc.isAutoReply gw).state.messages
          = (stopMediaRecording s true chunks).1.messages ++ [m] ∧
        m.originalText = "(Audio Content)" ∧
        m.originalText ≠ "" := by
  refine ⟨{ text := "(Audio Content)"
            sourceLang := if s.recordingWho.getD Sender.user = Sender.user
                          then s.langA else s.langB
            targetLang := if s.recordingWho.getD Sender.user = Sender.user
                          then s.langB else s.langA
            sender := s.recordingWho.getD Sender.user
            type := if s.commMode = CommMode.REC_VIDEO
                    then MessageType.video_file else MessageType.audio_file
            mediaBlob := some { chunks := chunks
                                mimeType := if s.commMode = CommMode.REC_VIDEO
                                            then "video/webm" else "audio/webm" }
            isAutoReply := false }, ?_, rfl, by simp, ?_⟩
  · simp [stopMediaRecording, hrec, hempty]
  · exact ⟨_, processInput_ok_messages _ _ _ _ _ _ _ _ gw tr htr, rfl, by simp [buildMessage]⟩

/-- Witness for C8 at the concrete example state, whose interim
transcript is empty and whose recording is in progress. -/
theorem spec_C8_witness :
    ∃ pc : PendingCall,
      (stopMediaRecording exState true [[0, 1]]).2 = some pc ∧
      pc.text = "(Audio Content)" ∧
      pc.text ≠ "" ∧
      ∃ m : Message,
        (processInput (stopMediaRecording exState true [[0, 1]]).1 pc.text pc.sourceLang
            pc.targetLang pc.sender pc.type pc.mediaBlob pc.isAutoReply exGwOk).state.messages
          = (stopMediaRecording exState true [[0, 1]]).1.messages ++ [m] ∧
        m.originalText = "(Audio Content)" ∧
        m.originalText ≠ "" :=
  spec_C8 exState [[0, 1]] rfl rfl exGwOk exTranslation rfl

/-- C9.  For every persisted profile whose tone field is a single
string value (the legacy shape), the load operation normalizes it so
that the in-memory profile has tone equal to the one-element list
containing that string; in particular a stored tone "Formal" loads
as the list containing exactly "Formal". -/
theorem spec_C9 (name primaryLanguage bio : String) (conversationTypes : List String)
    (tone : String) :
    (loadProfile
        { name := name, primaryLanguage := primaryLanguage
          conversationTypes := conversationTypes
          tone := ToneField.legacyTone tone, bio := bio }).tone = [tone] ∧
    (loadProfile
        { name := "Alex", primaryLanguage := "en-US", conversationTypes := []
          tone := ToneField.legacyTone "Formal", bio := "" }).tone = ["Formal"] :=
  ⟨rfl, rfl⟩

end OmniTalk
